import Mathlib

/-!
Shallow embedding of the export pipeline of the `slacker` repository
(package `usecase`, file `internal/usecase/export_service.go`, together with
the data model and helpers of `models/export.go` and `models/slack.go`).

Modelling conventions, used consistently below:

* Go `string` is Lean `String`; Go string comparison (`<` on strings, used by
  `sort.Slice` in `fetchAllMessages`) is byte-lexicographic and coincides with
  Lean's `String` order on the ASCII data involved.
* Go `int` fields are modelled as `Int` (no overflow is modelled; the values
  involved are far below 2^63).
* Go `time.Time` values are modelled as the instant they denote, measured in
  integer nanoseconds since the Unix epoch.  The zero `time.Time{}` denotes
  0001-01-01T00:00:00 UTC, i.e. `-62135596800` seconds before the epoch.
* A Go `map[string]T` that the code only reads/writes pointwise is modelled as
  an insertion-ordered association list (`bump` below reproduces `m[k]++`);
  the association-list content is exactly the map content.  Where the Go code
  *iterates* over a map (the `reactionCounts` map in `calculateStatistics`),
  the iteration order is unspecified in Go (runtime-randomised), so the model
  takes the iteration sequence as an explicit parameter constrained to be a
  permutation of the map's entries.
* `sort.Slice(x, less)` is an unstable sort; the model uses the
  (deterministic, structurally recursive) `List.insertionSort` with the
  non-strict version of the comparator.  Every property proved about a sort
  below depends only on the sortedness and the multiset of the result, which
  are common to all sorts `sort.Slice` can produce (plus, for the reaction
  ranking, the order of ties, which the explicit iteration-order parameter
  already makes nondeterministic).
-/

/-! ## Data model (`models/slack.go`) -/

/-- Go struct `models.Attachment` (the fields read by the export pipeline). -/
structure Attachment where
  id : Int
  color : String
  fallback : String
  title : String
  text : String
  imageURL : String
  thumbURL : String
deriving DecidableEq

/-- Go struct `models.File` (the fields read by the export pipeline). -/
structure File where
  id : String
  name : String
  title : String
  mimetype : String
  filetype : String
  size : Int
  url : String
deriving DecidableEq

/-- Go struct `models.Reaction`: emoji name, reacting users, count. -/
structure Reaction where
  name : String
  users : List String
  count : Int
deriving DecidableEq

/-- Go struct `models.Edited`. -/
structure Edited where
  user : String
  timestamp : String
deriving DecidableEq

/-- Go struct `models.Profile` (the fields copied by `ConvertToExportUser`). -/
structure Profile where
  displayName : String
  realName : String
  email : String
  image24 : String
  image32 : String
  image48 : String
  image72 : String
  image192 : String
  image512 : String
deriving DecidableEq

/-- The zero value of `models.Profile`. -/
def Profile.zero : Profile :=
  ⟨"", "", "", "", "", "", "", "", ""⟩

/-- Go struct `models.User`. -/
structure User where
  id : String
  name : String
  realName : String
  profile : Profile
  isBot : Bool
  deleted : Bool
deriving DecidableEq

/-- Go struct `models.Message`.  The field `thread` holds the attached thread
replies (`Thread []Message` in Go), making this a nested inductive type; in
every actual pipeline run the nesting is one level deep, but the Go functions
are written recursively, and so is the model.  Fields of the Go struct that
the export pipeline never reads (`Replies`, `BotID`, `Username`) are constant
for the code modelled here and are omitted. -/
inductive Message : Type where
  | mk (type : String) (user : String) (text : String) (timestamp : String)
       (threadTS : String) (replyCount : Int) (thread : List Message)
       (attachments : List Attachment) (files : List File)
       (reactions : List Reaction) (edited : Option Edited)
       (subtype : String) : Message

mutual

/-- Boolean equality on `Message` (field-wise). -/
def Message.beq : Message → Message → Bool
  | .mk ty1 u1 tx1 ts1 th1 rc1 t1 a1 f1 r1 e1 s1,
    .mk ty2 u2 tx2 ts2 th2 rc2 t2 a2 f2 r2 e2 s2 =>
      decide (ty1 = ty2) && decide (u1 = u2) && decide (tx1 = tx2) &&
      decide (ts1 = ts2) && decide (th1 = th2) && decide (rc1 = rc2) &&
      Message.beqList t1 t2 && decide (a1 = a2) && decide (f1 = f2) &&
      decide (r1 = r2) && decide (e1 = e2) && decide (s1 = s2)

/-- Boolean equality on `List Message` (element-wise). -/
def Message.beqList : List Message → List Message → Bool
  | [], [] => true
  | m :: ms, n :: ns => Message.beq m n && Message.beqList ms ns
  | _, _ => false

end

mutual

/-- `Message.beq` decides propositional equality. -/
theorem Message.beq_iff : ∀ a b : Message, Message.beq a b = true ↔ a = b
  | .mk ty1 u1 tx1 ts1 th1 rc1 t1 a1 f1 r1 e1 s1,
    .mk ty2 u2 tx2 ts2 th2 rc2 t2 a2 f2 r2 e2 s2 => by
      simp only [Message.beq, Bool.and_eq_true, decide_eq_true_eq, Message.mk.injEq]
      rw [Message.beqList_iff t1 t2]
      tauto

/-- `Message.beqList` decides propositional equality. -/
theorem Message.beqList_iff : ∀ a b : List Message, Message.beqList a b = true ↔ a = b
  | [], [] => by simp [Message.beqList]
  | [], _ :: _ => by simp [Message.beqList]
  | _ :: _, [] => by simp [Message.beqList]
  | m :: ms, n :: ns => by
      simp only [Message.beqList, Bool.and_eq_true, List.cons.injEq]
      rw [Message.beq_iff m n, Message.beqList_iff ms ns]

end

instance : DecidableEq Message := fun a b =>
  decidable_of_iff (Message.beq a b = true) (Message.beq_iff a b)

/-- Projection: the `Type` field. -/
def Message.type : Message → String
  | .mk ty _ _ _ _ _ _ _ _ _ _ _ => ty

/-- Projection: the `User` field (author id). -/
def Message.user : Message → String
  | .mk _ u _ _ _ _ _ _ _ _ _ _ => u

/-- Projection: the `Text` field. -/
def Message.text : Message → String
  | .mk _ _ tx _ _ _ _ _ _ _ _ _ => tx

/-- Projection: the `Timestamp` field (Slack "ts" string). -/
def Message.timestamp : Message → String
  | .mk _ _ _ ts _ _ _ _ _ _ _ _ => ts

/-- Projection: the `ThreadTS` field. -/
def Message.threadTS : Message → String
  | .mk _ _ _ _ th _ _ _ _ _ _ _ => th

/-- Projection: the `ReplyCount` field. -/
def Message.replyCount : Message → Int
  | .mk _ _ _ _ _ rc _ _ _ _ _ _ => rc

/-- Projection: the `Thread` field (attached reply list). -/
def Message.thread : Message → List Message
  | .mk _ _ _ _ _ _ t _ _ _ _ _ => t

/-- Projection: the `Attachments` field. -/
def Message.attachments : Message → List Attachment
  | .mk _ _ _ _ _ _ _ a _ _ _ _ => a

/-- Projection: the `Files` field. -/
def Message.files : Message → List File
  | .mk _ _ _ _ _ _ _ _ f _ _ _ => f

/-- Projection: the `Reactions` field. -/
def Message.reactions : Message → List Reaction
  | .mk _ _ _ _ _ _ _ _ _ r _ _ => r

/-- Projection: the `Edited` field. -/
def Message.edited : Message → Option Edited
  | .mk _ _ _ _ _ _ _ _ _ _ e _ => e

/-- Projection: the `Subtype` field. -/
def Message.subtype : Message → String
  | .mk _ _ _ _ _ _ _ _ _ _ _ s => s

/-- Replace the `Thread` field, as the assignment `msg.Thread = replies` in
`fetchThreadReplies` does. -/
def Message.setThread : Message → List Message → Message
  | .mk ty u tx ts th rc _ a f r e s, t => .mk ty u tx ts th rc t a f r e s

/-! ## Timestamp parsing (`models.ParseSlackTimestamp`) -/

/-- Numeric value of a list of decimal digit characters. -/
def digitsVal (l : List Char) : Nat :=
  l.foldl (fun a c => a * 10 + (c.toNat - 48)) 0

/-- Nanosecond value of a fractional-digit string: the first nine digits,
right-padded with zeros (further digits are below one nanosecond and are
truncated, as Go's conversion to `int64` nanoseconds truncates them). -/
def fracNanos (l : List Char) : Nat :=
  digitsVal (l.take 9) * 10 ^ (9 - (l.take 9).length)

/-- Model of `strconv.ParseFloat` on the fixed-point decimal numerals Slack
timestamps use: an optional sign, then decimal digits with at most one dot
and at least one digit.  The value is returned exactly, in integer
nanoseconds, truncated toward zero exactly as the Go code's
`int64(f)` / `int64((f-int64(f))*1e9)` decomposition truncates it.  (Go's
`ParseFloat` also accepts exponent and hex forms and rounds to `float64`;
neither matters for fixed-point second.microsecond timestamps, and the
claims below do not depend on those forms.)  `none` models a parse error. -/
def parseDecimalNanos (s : String) : Option Int :=
  let cs := s.data
  let neg : Bool := cs.head? = some '-'
  let body := if cs.head? = some '-' ∨ cs.head? = some '+' then cs.tail else cs
  let ip := body.takeWhile Char.isDigit
  let rest := body.dropWhile Char.isDigit
  match rest with
  | [] =>
      if ip.isEmpty then none
      else
        let mag : Int := (digitsVal ip : Int) * 1000000000
        some (if neg then -mag else mag)
  | '.' :: fp =>
      if fp.all Char.isDigit ∧ ¬(ip = [] ∧ fp = []) then
        let mag : Int := (digitsVal ip : Int) * 1000000000 + (fracNanos fp : Int)
        some (if neg then -mag else mag)
      else none
  | _ => none

/-- The instant denoted by the zero `time.Time{}` (0001-01-01T00:00:00 UTC),
in nanoseconds since the Unix epoch. -/
def goZeroTimeNanos : Int := -62135596800 * 1000000000

/-- Model of `models.ParseSlackTimestamp`: the empty string yields the zero
time with a nil error; otherwise the string is parsed as a decimal number
(`none` = error).  The returned instant is in nanoseconds since the epoch. -/
def parseSlackTimestamp (ts : String) : Option Int :=
  if ts = "" then some goZeroTimeNanos
  else parseDecimalNanos ts

/-! ## Date filtering (`filterMessagesByDate`) -/

/-- The date-range test applied to one message when at least one bound is
set: parse the timestamp (failure excludes the message); skip when strictly
before `dateFrom` (`timestamp.Before(*dateFrom)`) or strictly after `dateTo`
(`timestamp.After(*dateTo)`). -/
def inDateRange (dateFrom dateTo : Option Int) (m : Message) : Bool :=
  match parseSlackTimestamp m.timestamp with
  | none => false
  | some t =>
      (match dateFrom with
       | some f => decide (¬ t < f)
       | none => true) &&
      (match dateTo with
       | some u => decide (¬ u < t)
       | none => true)

/-- Model of `ExportService.filterMessagesByDate`: if both bounds are nil the
input is returned unchanged; otherwise messages are filtered by
`inDateRange`. -/
def filterMessagesByDate (messages : List Message)
    (dateFrom dateTo : Option Int) : List Message :=
  if dateFrom = none ∧ dateTo = none then messages
  else messages.filter (inDateRange dateFrom dateTo)

/-! ## Message history accumulation (`fetchAllMessages`) -/

/-- Go string comparison `s1 < s2` (byte-lexicographic), at the character
level: for valid UTF-8, byte-lexicographic order coincides with
codepoint-lexicographic order, so comparing the character sequences is the
Go comparison. -/
def charListLt : List Char → List Char → Bool
  | [], [] => false
  | [], _ :: _ => true
  | _ :: _, [] => false
  | a :: as, b :: bs =>
      if a < b then true
      else if b < a then false
      else charListLt as bs

/-- Go `s1 < s2` on strings. -/
def goStringLt (s1 s2 : String) : Bool :=
  charListLt s1.data s2.data

/-- Comparator of the `sort.Slice` call in `fetchAllMessages`
(`allMessages[i].Timestamp < allMessages[j].Timestamp`), in its non-strict
form: `a` may precede `b` iff `b`'s timestamp string is not lexicographically
smaller than `a`'s. -/
def msgLe (a b : Message) : Bool :=
  !(goStringLt b.timestamp a.timestamp)

/-- `msgLe` as a decidable relation (the form `List.insertionSort`
expects). -/
def msgRel (a b : Message) : Prop := msgLe a b = true

instance : DecidableRel msgRel := fun a b =>
  inferInstanceAs (Decidable (msgLe a b = true))

/-- Model of `ExportService.fetchAllMessages`.  The remote source's behaviour
is abstracted as `pages`, the successive `GetChannelHistory` results up to
the empty cursor (cursor plumbing, page size, progress reporting and the
inter-page delay do not affect the accumulated list).  Each page is filtered
by the date range and appended to the accumulator; the accumulated list is
finally sorted by the string comparison of timestamps. -/
def fetchAllMessages (dateFrom dateTo : Option Int)
    (pages : List (List Message)) : List Message :=
  List.insertionSort msgRel
    (pages.foldl (fun acc page => acc ++ filterMessagesByDate page dateFrom dateTo) [])

/-! ## Thread resolution (`fetchThreadReplies`) -/

/-- The qualification test of `fetchThreadReplies`:
`messages[i].ReplyCount > 0 && messages[i].ThreadTS != ""`. -/
def qualifiesForThreadFetch (m : Message) : Bool :=
  decide (0 < m.replyCount) && decide (m.threadTS ≠ "")

/-- The parent-echo strip of `fetchThreadReplies`: if the reply list is
non-empty and its first element's timestamp equals the parent's timestamp,
drop that first element. -/
def stripParentEcho (parentTS : String) (replies : List Message) : List Message :=
  match replies with
  | [] => []
  | r :: rest => if r.timestamp = parentTS then rest else r :: rest

/-- The `sort.Slice` call on a reply list in `fetchThreadReplies`
(ascending by timestamp string). -/
def sortByTimestamp (ms : List Message) : List Message :=
  List.insertionSort msgRel ms

/-- The effect of one iteration of the `fetchThreadReplies` loop on one
message.  The remote call is abstracted as `fetch`, mapping a thread
timestamp to the `GetThreadReplies` outcome.  A non-qualifying message is
untouched; a fetch error leaves the message untouched (`continue`); on
success the reply list is echo-stripped, sorted and attached. -/
def resolveThread (fetch : String → Except String (List Message))
    (m : Message) : Message :=
  if qualifiesForThreadFetch m then
    match fetch m.threadTS with
    | .error _ => m
    | .ok replies => m.setThread (sortByTimestamp (stripParentEcho m.timestamp replies))
  else m

/-- The warnings printed by `fetchThreadReplies`: one
`fmt.Printf("Warning: Failed to fetch replies for thread %s: %v\n", ...)`
line per qualifying message whose fetch fails. -/
def threadWarnings (fetch : String → Except String (List Message))
    (messages : List Message) : List String :=
  (messages.filter qualifiesForThreadFetch).filterMap fun m =>
    match fetch m.threadTS with
    | .error e =>
        some ("Warning: Failed to fetch replies for thread " ++ m.threadTS ++ ": " ++ e ++ "\n")
    | .ok _ => none

/-- Model of `ExportService.fetchThreadReplies`: every message is resolved in
turn (the Go code mutates the slice elements in place, preserving order), the
warnings are the printed lines, and the function's only `return` statement
returns `nil` — the `Except` value is always `ok`. -/
def fetchThreadReplies (fetch : String → Except String (List Message))
    (messages : List Message) : Except String (List Message × List String) :=
  .ok (messages.map (resolveThread fetch), threadWarnings fetch messages)

/-! ## User resolution (`fetchUserInfo`) -/

/-- The recursive `collectUserIDs` closure of `fetchUserInfo`: every
non-empty author id of a message or (recursively) of its thread replies.  The
Go code accumulates into a set; here the list's membership is the set. -/
def collectUserIDs : List Message → List String
  | [] => []
  | .mk _ u _ _ _ _ thread _ _ _ _ _ :: ms =>
      (if u = "" then [] else [u]) ++ collectUserIDs thread ++ collectUserIDs ms

/-- The content of the Go loop `for _, user := range allUsers { if userIDs[user.ID]
{ users[user.ID] = user } }` at one key: the last directory entry carrying
this id, if any. -/
def lookupDirectory (allUsers : List User) (id : String) : Option User :=
  allUsers.foldl (fun acc u => if u.id = id then some u else acc) none

/-- The placeholder `models.User` synthesized by `fetchUserInfo` for a
referenced id absent from the directory: zero-valued fields except
`ID`, `Name = "user_"+id`, `RealName = "Unknown User"`, `Deleted = true`. -/
def placeholderUser (id : String) : User :=
  { id := id, name := "user_" ++ id, realName := "Unknown User",
    profile := Profile.zero, isBot := false, deleted := true }

/-- Model of `ExportService.fetchUserInfo`, as the content of the returned
`map[string]models.User` at each key: ids never referenced are absent;
referenced ids resolve to the (last) directory entry, or to the placeholder
when the directory has none. -/
def fetchUserInfo (messages : List Message) (allUsers : List User)
    (id : String) : Option User :=
  if id ∈ collectUserIDs messages then
    match lookupDirectory allUsers id with
    | some u => some u
    | none => some (placeholderUser id)
  else none

/-! ## Calendar-day bucketing (`timestamp.Format("2006-01-02")`)

`calculateStatistics` formats the parsed timestamp with layout
`"2006-01-02"`.  `time.Unix` yields a `time.Time` in the *process-local*
timezone, so the rendered calendar day is the local day of the instant.  The
model takes the process timezone as an explicit fixed UTC offset in seconds
(`tzOffset`); a process running in UTC has `tzOffset = 0`. -/

/-- Proleptic-Gregorian civil date `(year, month, day)` of a day number
(days since 1970-01-01).  This is the standard days-from-epoch inversion the
Go `time` package computes when formatting a date. -/
def civilFromDays (z0 : Int) : Int × Int × Int :=
  let z := z0 + 719468
  let era := Int.fdiv z 146097
  let doe := z - era * 146097
  let yoe := (doe - doe / 1460 + doe / 36524 - doe / 146096) / 365
  let y := yoe + era * 400
  let doy := doe - (365 * yoe + yoe / 4 - yoe / 100)
  let mp := (5 * doy + 2) / 153
  let d := doy - (153 * mp + 2) / 5 + 1
  let m := mp + (if mp < 10 then 3 else -9)
  (y + (if m ≤ 2 then 1 else 0), m, d)

/-- Left-pad the decimal rendering of a natural number with zeros. -/
def padNum (width : Nat) (n : Nat) : String :=
  let s := toString n
  String.mk (List.replicate (width - s.length) '0') ++ s

/-- Render a civil date in the Go layout `"2006-01-02"` (zero-padded
`YYYY-MM-DD`; every date reachable in this model has a positive year). -/
def formatDateKey : Int × Int × Int → String
  | (y, m, d) => padNum 4 y.toNat ++ "-" ++ padNum 2 m.toNat ++ "-" ++ padNum 2 d.toNat

/-- The bucket key `calculateStatistics` derives from an instant (nanoseconds
since epoch): the calendar day of the instant in the local timezone, i.e. of
the instant's Unix second shifted by the process UTC offset. -/
def localDateKey (tzOffset : Int) (nanos : Int) : String :=
  formatDateKey (civilFromDays (Int.fdiv (Int.fdiv nanos 1000000000 + tzOffset) 86400))

/-- Modelled from the spec: the "UTC calendar day derived from the parsed
timestamp" — the civil date of the instant's Unix second with no offset
applied. -/
def utcDateKey (nanos : Int) : String :=
  formatDateKey (civilFromDays (Int.fdiv (Int.fdiv nanos 1000000000) 86400))

/-! ## Statistics aggregation (`calculateStatistics`) -/

/-- Go struct `models.ReactionStat`. -/
structure ReactionStat where
  name : String
  count : Int
deriving DecidableEq

/-- Go struct `models.ExportStatistics`.  The two duration fields
(`ExportDuration`, `ProcessingTime`) are wall-clock measurements assigned by
the orchestrator after aggregation, not computed by `calculateStatistics`;
they are outside this model.  The two `map[string]int` fields are modelled as
insertion-ordered association lists whose content is the map content. -/
structure ExportStatistics where
  totalMessages : Int
  totalThreads : Int
  totalReplies : Int
  totalUsers : Int
  totalAttachments : Int
  totalFiles : Int
  totalReactions : Int
  messagesByUser : List (String × Int)
  messagesByDate : List (String × Int)
  topReactions : List ReactionStat
deriving DecidableEq

/-- The statistics value `calculateStatistics` starts from: zero counters and
empty maps. -/
def initStats : ExportStatistics :=
  { totalMessages := 0, totalThreads := 0, totalReplies := 0, totalUsers := 0,
    totalAttachments := 0, totalFiles := 0, totalReactions := 0,
    messagesByUser := [], messagesByDate := [], topReactions := [] }

/-- Go `m[k] += n` on an insertion-ordered association list: increment the
existing entry in place, or append a fresh entry holding `n`. -/
def bump (k : String) (n : Int) : List (String × Int) → List (String × Int)
  | [] => [(k, n)]
  | (k', v) :: rest => if k' = k then (k', v + n) :: rest else (k', v) :: bump k n rest

/-- The loop `for _, reaction := range msg.Reactions { stats.TotalReactions
+= reaction.Count }`. -/
def sumReactionCounts (rs : List Reaction) : Int :=
  rs.foldl (fun a r => a + r.count) 0

mutual

/-- The body of the recursive `countMessages` closure of
`calculateStatistics` for one message: increment `TotalMessages`; count by
(non-empty) user; count by formatted local calendar day when the timestamp
parses; add attachment/file list lengths; add reaction counts; when the
attached reply list is non-empty, increment `TotalThreads`, add the list
length to `TotalReplies` and recurse into the replies. -/
def countOneMessage (tzOffset : Int) (stats : ExportStatistics) :
    Message → ExportStatistics
  | .mk _ u _ ts _ _ thread atts fils reacts _ _ =>
      let stats := { stats with totalMessages := stats.totalMessages + 1 }
      let stats :=
        if u = "" then stats
        else { stats with messagesByUser := bump u 1 stats.messagesByUser }
      let stats :=
        match parseSlackTimestamp ts with
        | some t =>
            { stats with messagesByDate := bump (localDateKey tzOffset t) 1 stats.messagesByDate }
        | none => stats
      let stats := { stats with totalAttachments := stats.totalAttachments + atts.length }
      let stats := { stats with totalFiles := stats.totalFiles + fils.length }
      let stats := { stats with totalReactions := stats.totalReactions + sumReactionCounts reacts }
      if 0 < thread.length then
        countMessagesList tzOffset
          { stats with totalThreads := stats.totalThreads + 1,
                       totalReplies := stats.totalReplies + thread.length } thread
      else stats

/-- The recursive `countMessages` closure over a message list. -/
def countMessagesList (tzOffset : Int) (stats : ExportStatistics) :
    List Message → ExportStatistics
  | [] => stats
  | m :: ms => countMessagesList tzOffset (countOneMessage tzOffset stats m) ms

end

mutual

/-- The body of the recursive `collectReactions` closure of
`calculateStatistics` for one message: `reactionCounts[reaction.Name] +=
reaction.Count` for each reaction, then recurse into the reply list. -/
def collectReactionsOne (acc : List (String × Int)) : Message → List (String × Int)
  | .mk _ _ _ _ _ _ thread _ _ reacts _ _ =>
      collectReactionsList (reacts.foldl (fun a r => bump r.name r.count a) acc) thread

/-- The recursive `collectReactions` closure over a message list. -/
def collectReactionsList (acc : List (String × Int)) : List Message → List (String × Int)
  | [] => acc
  | m :: ms => collectReactionsList (collectReactionsOne acc m) ms

end

/-- The content of the `reactionCounts` map of `calculateStatistics`, as the
insertion-ordered association list built by the walk. -/
def reactionCounts (messages : List Message) : List (String × Int) :=
  collectReactionsList [] messages

/-- Comparator of the `sort.Slice` call on `reactionPairs`
(`reactionPairs[i].count > reactionPairs[j].count`), in its non-strict form:
`a` may precede `b` iff `b`'s count does not exceed `a`'s. -/
def reactionLe (a b : String × Int) : Bool :=
  decide (b.2 ≤ a.2)

/-- `reactionLe` as a decidable relation (the form `List.insertionSort`
expects). -/
def reactionRel (a b : String × Int) : Prop := reactionLe a b = true

instance : DecidableRel reactionRel := fun a b =>
  inferInstanceAs (Decidable (reactionLe a b = true))

/-- The `TopReactions` computation applied to one iteration sequence of the
`reactionCounts` map: sort descending by count and keep the first ten
entries (`maxReactions`). -/
def topReactionsOf (pairs : List (String × Int)) : List ReactionStat :=
  ((List.insertionSort reactionRel pairs).take 10).map fun p => { name := p.1, count := p.2 }

/-- Model of `ExportService.calculateStatistics`.  `users` is the referenced-
user map (association list with pairwise-distinct keys), so `users.length` is
the Go `len(users)`.  `pairs` is the sequence in which the Go `range` loop
happens to enumerate the `reactionCounts` map — Go randomises map iteration
order, so the model exposes it as a parameter; every theorem about it
constrains `pairs` to be a permutation of `reactionCounts messages`. -/
def calculateStatisticsWith (tzOffset : Int) (messages : List Message)
    (users : List (String × User)) (pairs : List (String × Int)) : ExportStatistics :=
  let stats := countMessagesList tzOffset initStats messages
  let stats := { stats with totalUsers := (users.length : Int) }
  { stats with topReactions := topReactionsOf pairs }

/-- `calculateStatistics` under one canonical map-iteration order (the
insertion order of `reactionCounts`); used to evaluate the model at concrete
inputs. -/
def calculateStatistics (tzOffset : Int) (messages : List Message)
    (users : List (String × User)) : ExportStatistics :=
  calculateStatisticsWith tzOffset messages users (reactionCounts messages)

/-! ## Export schema (`models/export.go`)

The export-side structures below carry exactly the fields that
`processExportData`, `ConvertToExportMessage` and `ConvertToExportUser`
assign.  The remaining fields of the Go structs (for example
`ExportMessage.ParentUserID`, `ExportMessage.ReplyUsers`, the thumbnail
fields of `ExportFile`, `ExportUser.IsAdmin`, `ChannelInfo.Members`) are
never assigned anywhere in the pipeline, so they hold their zero value in
every export document and are omitted from the model. -/

/-- Go struct `models.EditInfo` (timestamp as parsed instant). -/
structure EditInfo where
  user : String
  timestamp : Int
deriving DecidableEq

/-- Go struct `models.ExportAttachment` (assigned fields). -/
structure ExportAttachment where
  id : String
  title : String
  text : String
  fallback : String
  color : String
  imageURL : String
  thumbURL : String
deriving DecidableEq

/-- Go struct `models.ExportFile` (assigned fields). -/
structure ExportFile where
  id : String
  name : String
  title : String
  mimetype : String
  filetype : String
  size : Int
  urlPrivate : String
  timestamp : Int
deriving DecidableEq

/-- Go struct `models.ExportReaction`. -/
structure ExportReaction where
  name : String
  count : Int
  users : List String
deriving DecidableEq

/-- Go struct `models.ExportMessage` (assigned fields; `replies` nests). -/
inductive ExportMessage : Type where
  | mk (id : String) (user : String) (text : String) (timestamp : Int)
       (type : String) (subtype : String) (edited : Option EditInfo)
       (threadTimestamp : String) (replyCount : Int)
       (replies : List ExportMessage)
       (attachments : List ExportAttachment) (files : List ExportFile)
       (reactions : List ExportReaction) : ExportMessage

/-- Go struct `models.ExportProfile` (assigned fields). -/
structure ExportProfile where
  displayName : String
  realName : String
  email : String
  image24 : String
  image32 : String
  image48 : String
  image72 : String
  image192 : String
  image512 : String
deriving DecidableEq

/-- Go struct `models.ExportUser` (assigned fields). -/
structure ExportUser where
  id : String
  name : String
  realName : String
  profile : ExportProfile
  isBot : Bool
  deleted : Bool
deriving DecidableEq

/-- Go struct `models.Topic`. -/
structure Topic where
  value : String
  creator : String
  lastSet : Int
deriving DecidableEq

/-- Go struct `models.Channel` (the fields the export pipeline reads; the
membership flags `IsChannel`, `IsGroup`, `IsIM`, `IsMember` are never read by
it and are omitted). -/
structure Channel where
  id : String
  name : String
  isPrivate : Bool
  isArchived : Bool
  numMembers : Int
  topic : Topic
  purpose : Topic
  created : Int
  creator : String
deriving DecidableEq

/-- Go struct `models.ChannelInfo` (assigned fields; `createdAt` is the
parsed instant, `goZeroTimeNanos` when unset). -/
structure ChannelInfo where
  id : String
  name : String
  isPrivate : Bool
  isArchived : Bool
  topic : String
  purpose : String
  createdAt : Int
  creator : String
  numMembers : Int
deriving DecidableEq

/-- Go struct `models.DateRange`. -/
structure DateRange where
  from? : Option Int
  to? : Option Int
deriving DecidableEq

/-- Go struct `models.ExportMetadata`.  Note: these are *all* the fields of
the Go struct — it records the export time, tool name and version, the
format, the thread-inclusion flag and the optional date range, and nothing
else. -/
structure ExportMetadata where
  exportedAt : Int
  exportedBy : String
  slackerVersion : String
  exportFormat : String
  includeThreads : Bool
  dateRange : DateRange
deriving DecidableEq

/-- Go struct `models.ExportOptions`. -/
structure ExportOptions where
  channelID : String
  channelName : String
  includeThreads : Bool
  includeFiles : Bool
  includeReactions : Bool
  dateFrom : Option Int
  dateTo : Option Int
  outputFile : String
  format : String
  compression : String
deriving DecidableEq

/-- Go struct `models.ChannelExport` — the complete export document.  The
user map is modelled as an association list (content = map content). -/
structure ChannelExport where
  exportInfo : ExportMetadata
  channel : ChannelInfo
  messages : List ExportMessage
  users : List (String × ExportUser)
  statistics : ExportStatistics

/-! ## Conversion to export format (`ConvertToExportMessage`,
`ConvertToExportUser`) -/

/-- The attachment conversion loop of `ConvertToExportMessage`
(`ID: strconv.Itoa(att.ID)` plus six copied fields). -/
def convertAttachment (att : Attachment) : ExportAttachment :=
  { id := toString att.id, title := att.title, text := att.text,
    fallback := att.fallback, color := att.color,
    imageURL := att.imageURL, thumbURL := att.thumbURL }

/-- The file conversion loop of `ConvertToExportMessage`; the Go code stamps
each converted file with `time.Now()`, modelled by the explicit `now`. -/
def convertFile (now : Int) (f : File) : ExportFile :=
  { id := f.id, name := f.name, title := f.title, mimetype := f.mimetype,
    filetype := f.filetype, size := f.size, urlPrivate := f.url,
    timestamp := now }

/-- The reaction conversion loop of `ConvertToExportMessage` (verbatim). -/
def convertReaction (r : Reaction) : ExportReaction :=
  { name := r.name, count := r.count, users := r.users }

/-- The edit-record conversion of `ConvertToExportMessage`: kept only when
the edit timestamp parses. -/
def convertEdited : Option Edited → Option EditInfo
  | none => none
  | some e =>
      match parseSlackTimestamp e.timestamp with
      | some t => some { user := e.user, timestamp := t }
      | none => none

mutual

/-- Model of `models.ConvertToExportMessage`: id is the raw timestamp
string; the structured timestamp is the parsed instant (left at the zero
value when parsing fails); attachments, files, reactions are converted
per-element; replies are converted recursively from the attached thread. -/
def convertToExportMessage (now : Int) : Message → ExportMessage
  | .mk ty u tx ts th rc thread atts fils reacts ed st =>
      .mk ts u tx
        (match parseSlackTimestamp ts with
         | some t => t
         | none => goZeroTimeNanos)
        ty st (convertEdited ed) th rc
        (convertToExportMessageList now thread)
        (atts.map convertAttachment) (fils.map (convertFile now))
        (reacts.map convertReaction)

/-- `ConvertToExportMessage` over a reply list. -/
def convertToExportMessageList (now : Int) : List Message → List ExportMessage
  | [] => []
  | m :: ms => convertToExportMessage now m :: convertToExportMessageList now ms

end

/-- Model of `models.ConvertToExportUser`. -/
def convertToExportUser (u : User) : ExportUser :=
  { id := u.id, name := u.name, realName := u.realName,
    isBot := u.isBot, deleted := u.deleted,
    profile := { displayName := u.profile.displayName,
                 realName := u.profile.realName, email := u.profile.email,
                 image24 := u.profile.image24, image32 := u.profile.image32,
                 image48 := u.profile.image48, image72 := u.profile.image72,
                 image192 := u.profile.image192, image512 := u.profile.image512 } }

/-! ## Data processing (`processExportData`) -/

/-- The `ChannelInfo` assembly of `processExportData`, including its four
conditional assignments. -/
def channelInfoOf (channel : Channel) : ChannelInfo :=
  let info : ChannelInfo :=
    { id := channel.id, name := channel.name, isPrivate := channel.isPrivate,
      isArchived := channel.isArchived, numMembers := channel.numMembers,
      topic := "", purpose := "", createdAt := goZeroTimeNanos, creator := "" }
  let info := if channel.topic.value ≠ "" then { info with topic := channel.topic.value } else info
  let info := if channel.purpose.value ≠ "" then { info with purpose := channel.purpose.value } else info
  let info := if 0 < channel.created then { info with createdAt := channel.created * 1000000000 } else info
  if channel.creator ≠ "" then { info with creator := channel.creator } else info

/-- The `ExportMetadata` assembly of `processExportData`: export time
(`time.Now()`, the explicit `now`), the literal `"slacker-cli"`, the service
version, the format and thread flag from the options, and the date range
only when at least one bound is set. -/
def exportMetadataOf (now : Int) (version : String) (options : ExportOptions) : ExportMetadata :=
  let info : ExportMetadata :=
    { exportedAt := now, exportedBy := "slacker-cli", slackerVersion := version,
      exportFormat := options.format, includeThreads := options.includeThreads,
      dateRange := { from? := none, to? := none } }
  if options.dateFrom ≠ none ∨ options.dateTo ≠ none then
    { info with dateRange := { from? := options.dateFrom, to? := options.dateTo } }
  else info

/-- Model of `ExportService.processExportData`: converts messages and users
to the export schema, computes the statistics, assembles channel info and
metadata, and returns the complete document together with the statistics.
`now` models the two `time.Now()` readings of this stage, `tzOffset` the
process timezone, `pairs` the reaction-map iteration order (see
`calculateStatisticsWith`). -/
def processExportData (now tzOffset : Int) (version : String)
    (channel : Channel) (messages : List Message)
    (users : List (String × User)) (options : ExportOptions)
    (pairs : List (String × Int)) : ChannelExport × ExportStatistics :=
  let exportMessages := convertToExportMessageList now messages
  let exportUsers := users.map fun p => (p.1, convertToExportUser p.2)
  let statistics := calculateStatisticsWith tzOffset messages users pairs
  let exportData : ChannelExport :=
    { exportInfo := exportMetadataOf now version options,
      channel := channelInfoOf channel,
      messages := exportMessages,
      users := exportUsers,
      statistics := statistics }
  (exportData, statistics)

/-! ## Output file generation (`generateOutputFile`) -/

/-- Go `strings.HasSuffix(s, suffix)` (byte-level suffix test; for valid
UTF-8 this is the character-level suffix test). -/
def strHasSuffix (s suffix : String) : Bool :=
  List.isSuffixOf suffix.data s.data

/-- The error `writeZipFile` returns unconditionally, before creating any
file. -/
def zipUnsupportedError : String := "zip compression not yet implemented"

/-- Outcome of the file-generation stage: the returned value (final path or
error) and the paths of the files written.  The JSON rendering itself is
abstracted away (its bytes do not affect which file is written or whether
the stage succeeds); directory creation is not a document write. -/
instance : DecidableEq (Except String String) := fun a b =>
  match a, b with
  | .ok x, .ok y => decidable_of_iff (x = y) (by simp)
  | .error x, .error y => decidable_of_iff (x = y) (by simp)
  | .ok _, .error _ => isFalse (by intro h; cases h)
  | .error _, .ok _ => isFalse (by intro h; cases h)

structure FileGenOutcome where
  result : Except String String
  writes : List String
deriving DecidableEq

/-- Model of `ExportService.generateOutputFile`'s compression switch:
`"gzip"` appends `".gz"` unless already present and writes the (compressed)
document there; `"zip"` appends `".zip"` unless already present but then
fails in `writeZipFile` with `zipUnsupportedError`, writing nothing; any
other value (`"none"`, empty, …) writes the raw bytes to the given path. -/
def generateOutputFile (compression outputFile : String) : FileGenOutcome :=
  if compression = "gzip" then
    let f := if strHasSuffix outputFile ".gz" then outputFile else outputFile ++ ".gz"
    { result := .ok f, writes := [f] }
  else if compression = "zip" then
    { result := .error zipUnsupportedError, writes := [] }
  else
    { result := .ok outputFile, writes := [outputFile] }

/-! ## Specification-side measures and predicates -/

mutual

/-- Number of reply messages in all reply lists attached at or below one
message (the spec's "replies across all attached reply lists"). -/
def attachedRepliesOne : Message → Int
  | .mk _ _ _ _ _ _ thread _ _ _ _ _ =>
      (thread.length : Int) + attachedRepliesList thread

/-- Number of reply messages in all reply lists attached below a message
list. -/
def attachedRepliesList : List Message → Int
  | [] => 0
  | m :: ms => attachedRepliesOne m + attachedRepliesList ms

end

/-- Non-strict comparison of two messages by parsed numeric timestamp
(vacuously true when either side does not parse). -/
def parsedLeB (a b : Message) : Bool :=
  match parseSlackTimestamp a.timestamp, parseSlackTimestamp b.timestamp with
  | some x, some y => decide (x ≤ y)
  | _, _ => true

/-- Adjacent-pairs check that a list is ordered by parsed timestamp
value. -/
def nondecreasingByParsedTsB : List Message → Bool
  | [] => true
  | [_] => true
  | a :: b :: rest => parsedLeB a b && nondecreasingByParsedTsB (b :: rest)

/-- The claim's reading of "non-decreasing by parsed (numeric) timestamp":
each adjacent pair of the list is ordered by parsed value. -/
def nondecreasingByParsedTs (l : List Message) : Prop :=
  nondecreasingByParsedTsB l = true

instance (l : List Message) : Decidable (nondecreasingByParsedTs l) :=
  inferInstanceAs (Decidable (nondecreasingByParsedTsB l = true))

/-- Agreement of two statistics values on every field except
`topReactions`. -/
def statsAgreeExceptTopReactions (s₁ s₂ : ExportStatistics) : Prop :=
  s₁.totalMessages = s₂.totalMessages ∧ s₁.totalThreads = s₂.totalThreads ∧
  s₁.totalReplies = s₂.totalReplies ∧ s₁.totalUsers = s₂.totalUsers ∧
  s₁.totalAttachments = s₂.totalAttachments ∧ s₁.totalFiles = s₂.totalFiles ∧
  s₁.totalReactions = s₂.totalReactions ∧
  s₁.messagesByUser = s₂.messagesByUser ∧ s₁.messagesByDate = s₂.messagesByDate

/-! ## Concrete values used by counterexamples and witnesses -/

/-- A plain message with author `U1` and no thread: timestamp `"1.0"`, two
reactions `a:1` and `b:1` (equal aggregate counts). -/
def c2Message : Message :=
  .mk "message" "U1" "hi" "1.0" "" 0 [] [] []
    [⟨"a", ["U1"], 1⟩, ⟨"b", ["U2"], 1⟩] none ""

/-- A message with two reactions of distinct aggregate counts `a:2`, `b:1`. -/
def c2MessageW : Message :=
  .mk "message" "U1" "hi" "1.0" "" 0 [] [] []
    [⟨"a", ["U1", "U2"], 2⟩, ⟨"b", ["U2"], 1⟩] none ""

/-- A threaded parent whose timestamp is `"1"`. -/
def c3Parent : Message :=
  .mk "message" "U1" "parent" "1" "1" 1 [] [] [] [] none ""

/-- A reply whose timestamp equals the parent's (`"1"`) — a parent echo. -/
def c3Echo : Message :=
  .mk "message" "U1" "parent" "1" "1" 0 [] [] [] [] none ""

/-- A genuine reply with timestamp `"2"`. -/
def c3Reply : Message :=
  .mk "message" "U2" "reply" "2" "1" 0 [] [] [] [] none ""

/-- A message timestamped `"10.2"`. -/
def c4MessageA : Message :=
  .mk "message" "U1" "a" "10.2" "" 0 [] [] [] [] none ""

/-- A message timestamped `"9.5"`. -/
def c4MessageB : Message :=
  .mk "message" "U1" "b" "9.5" "" 0 [] [] [] [] none ""

/-- A message authored by `U999999`, the id absent from the directory. -/
def c5Message : Message :=
  .mk "message" "U999999" "hello" "1.0" "" 0 [] [] [] [] none ""

/-- A directory user with id `U111111`. -/
def c5DirectoryUser : User :=
  { id := "U111111", name := "alice", realName := "Alice",
    profile := Profile.zero, isBot := false, deleted := false }

/-- A message whose timestamp string `"not-a-number"` fails to parse. -/
def c10Message : Message :=
  .mk "message" "U1" "bad" "not-a-number" "" 0 [] [] [] [] none ""

/-- A message timestamped one second before 2024 UTC
(`1704067199` = 2023-12-31T23:59:59Z). -/
def c8Message : Message :=
  .mk "message" "U1" "eve" "1704067199" "" 0 [] [] [] [] none ""

/-- A qualifying threaded message (used to exercise thread resolution). -/
def c7Parent : Message :=
  .mk "message" "U1" "parent" "100.1" "100.1" 2 [] [] [] [] none ""

/-- A second qualifying threaded message. -/
def c7Parent2 : Message :=
  .mk "message" "U2" "parent2" "200.1" "200.1" 1 [] [] [] [] none ""

/-- A reply in `c7Parent2`'s thread. -/
def c7Reply2 : Message :=
  .mk "message" "U3" "reply" "200.2" "200.1" 0 [] [] [] [] none ""

/-- A thread-reply oracle that fails for `c7Parent`'s thread and succeeds
for `c7Parent2`'s. -/
def c7Fetch : String → Except String (List Message) :=
  fun ts => if ts = "100.1" then .error "rate limited" else .ok [c7Reply2]

/-- Concrete export options (every content field set, both content flags
true). -/
def c9OptionsA : ExportOptions :=
  { channelID := "C123456", channelName := "general", includeThreads := true,
    includeFiles := true, includeReactions := true, dateFrom := none,
    dateTo := none, outputFile := "out.json", format := "json",
    compression := "" }

/-- The same options with both content flags flipped off. -/
def c9OptionsB : ExportOptions :=
  { c9OptionsA with includeFiles := false, includeReactions := false }

/-- A concrete channel for document-level evaluation. -/
def c9Channel : Channel :=
  { id := "C123456", name := "general", isPrivate := false,
    isArchived := false, numMembers := 3,
    topic := { value := "t", creator := "U1", lastSet := 0 },
    purpose := { value := "p", creator := "U1", lastSet := 0 },
    created := 1700000000, creator := "U1" }


/-! ## Helper lemmas -/

/-- The directory-lookup fold returns its accumulator when no entry carries
the sought id. -/
theorem foldl_lookup_eq_acc (id : String) :
    ∀ (l : List User) (acc : Option User), (∀ u ∈ l, u.id ≠ id) →
      l.foldl (fun acc u => if u.id = id then some u else acc) acc = acc := by
  intro l
  induction l with
  | nil => intro acc _; rfl
  | cons u us ih =>
      intro acc h
      simp only [List.foldl_cons]
      rw [if_neg (h u (List.mem_cons_self u us))]
      exact ih acc fun v hv => h v (List.mem_cons_of_mem u hv)

/-- `lookupDirectory` finds nothing when no directory entry carries the
sought id. -/
theorem lookupDirectory_eq_none (allUsers : List User) (id : String)
    (h : ∀ u ∈ allUsers, u.id ≠ id) : lookupDirectory allUsers id = none :=
  foldl_lookup_eq_acc id allUsers none h

/-- `setThread` indeed replaces the `thread` field. -/
theorem Message.thread_setThread (m : Message) (l : List Message) :
    (m.setThread l).thread = l := by
  cases m
  rfl

/-- Every member of an echo-stripped list is a member of the original
list. -/
theorem mem_stripParentEcho {r : Message} {parentTS : String}
    {replies : List Message} (h : r ∈ stripParentEcho parentTS replies) :
    r ∈ replies := by
  cases replies with
  | nil => exact h
  | cons a rest =>
      simp only [stripParentEcho] at h
      by_cases ha : a.timestamp = parentTS
      · rw [if_pos ha] at h
        exact List.mem_cons_of_mem a h
      · rwa [if_neg ha] at h

/-- If the parent timestamp occurs in the returned replies at most as the
first element, the echo-stripped list avoids it entirely. -/
theorem stripParentEcho_no_parent {parentTS : String} {replies : List Message}
    (h : ∀ r ∈ replies.drop 1, r.timestamp ≠ parentTS) :
    ∀ r ∈ stripParentEcho parentTS replies, r.timestamp ≠ parentTS := by
  cases replies with
  | nil => intro r hr; cases hr
  | cons a rest =>
      intro r hr
      simp only [stripParentEcho] at hr
      by_cases ha : a.timestamp = parentTS
      · rw [if_pos ha] at hr
        exact h r hr
      · rw [if_neg ha] at hr
        rcases List.mem_cons.mp hr with h1 | h2
        · rw [h1]; exact ha
        · exact h r h2

/-! ## C5 — placeholder synthesis for unknown referenced users -/

/-- C5: any id that appears as the author of a message or of a reply
(`collectUserIDs`) and is carried by no `ListUsers` directory entry resolves,
in the user map `fetchUserInfo` returns, to the synthesized placeholder:
`deleted = true`, real name `"Unknown User"`, handle `"user_" ++ id`. -/
theorem fetchUserInfo_placeholder (messages : List Message)
    (allUsers : List User) (id : String)
    (h1 : id ∈ collectUserIDs messages) (h2 : ∀ u ∈ allUsers, u.id ≠ id) :
    fetchUserInfo messages allUsers id = some (placeholderUser id)
    ∧ (placeholderUser id).deleted = true
    ∧ (placeholderUser id).realName = "Unknown User"
    ∧ (placeholderUser id).name = "user_" ++ id := by
  refine ⟨?_, rfl, rfl, rfl⟩
  unfold fetchUserInfo
  rw [if_pos h1, lookupDirectory_eq_none allUsers id h2]

/-- Witness for C5 at the spec's own example: a message authored by
`U999999` with a directory holding only `U111111`. -/
theorem fetchUserInfo_placeholder_witness :
    fetchUserInfo [c5Message] [c5DirectoryUser] "U999999"
        = some (placeholderUser "U999999")
    ∧ (placeholderUser "U999999").deleted = true
    ∧ (placeholderUser "U999999").realName = "Unknown User"
    ∧ (placeholderUser "U999999").name = "user_" ++ "U999999" :=
  fetchUserInfo_placeholder [c5Message] [c5DirectoryUser] "U999999"
    (by simp [collectUserIDs, c5Message]) (by decide)

/-! ## C6 — gzip suffixing and the unsupported zip mode -/

/-- C6: with compression `"gzip"` the document is written to the output path
with `".gz"` appended whenever the path does not already end in it, and that
is the path returned; with compression `"zip"` the stage returns the
explicit unsupported-operation error of `writeZipFile` and writes no
file. -/
theorem generateOutputFile_gzip_and_zip (p : String)
    (hp : strHasSuffix p ".gz" = false) :
    (generateOutputFile "gzip" p).result = .ok (p ++ ".gz")
    ∧ (generateOutputFile "gzip" p).writes = [p ++ ".gz"]
    ∧ (generateOutputFile "zip" p).result = .error zipUnsupportedError
    ∧ (generateOutputFile "zip" p).writes = [] := by
  unfold generateOutputFile
  simp [hp]

/-- Witness for C6 at the spec's own example path `"foo.json"`: the gzip
output lands at `"foo.json.gz"`. -/
theorem generateOutputFile_gzip_and_zip_witness :
    (generateOutputFile "gzip" "foo.json").result = .ok ("foo.json" ++ ".gz")
    ∧ (generateOutputFile "gzip" "foo.json").writes = ["foo.json" ++ ".gz"]
    ∧ (generateOutputFile "zip" "foo.json").result = .error zipUnsupportedError
    ∧ (generateOutputFile "zip" "foo.json").writes = [] :=
  generateOutputFile_gzip_and_zip "foo.json" (by decide)

/-! ## C7 — a single thread fetch failure is non-fatal -/

/-- C7: when the reply fetch of one qualifying message fails, the
thread-resolution stage still returns success with every message resolved
independently (so every other qualifying thread is still processed), the
failing message is left untouched — its reply list stays empty — and the
failure surfaces only as a warning line. -/
theorem fetchThreadReplies_degraded
    (fetch : String → Except String (List Message))
    (messages : List Message) (m : Message) (e : String)
    (hm : m ∈ messages) (hq : qualifiesForThreadFetch m = true)
    (hf : fetch m.threadTS = .error e) (h0 : m.thread = []) :
    fetchThreadReplies fetch messages
        = .ok (messages.map (resolveThread fetch), threadWarnings fetch messages)
    ∧ resolveThread fetch m = m
    ∧ (resolveThread fetch m).thread = []
    ∧ ("Warning: Failed to fetch replies for thread " ++ m.threadTS
        ++ ": " ++ e ++ "\n") ∈ threadWarnings fetch messages := by
  have huntouched : resolveThread fetch m = m := by
    unfold resolveThread
    rw [if_pos hq, hf]
  refine ⟨rfl, huntouched, by rw [huntouched, h0], ?_⟩
  unfold threadWarnings
  apply List.mem_filterMap.mpr
  refine ⟨m, List.mem_filter.mpr ⟨hm, hq⟩, ?_⟩
  rw [hf]

/-- Witness for C7: of two qualifying threads the first fetch fails and the
second still resolves. -/
theorem fetchThreadReplies_degraded_witness :
    fetchThreadReplies c7Fetch [c7Parent, c7Parent2]
        = .ok ([c7Parent, c7Parent2].map (resolveThread c7Fetch),
               threadWarnings c7Fetch [c7Parent, c7Parent2])
    ∧ resolveThread c7Fetch c7Parent = c7Parent
    ∧ (resolveThread c7Fetch c7Parent).thread = []
    ∧ ("Warning: Failed to fetch replies for thread " ++ c7Parent.threadTS
        ++ ": " ++ "rate limited" ++ "\n") ∈ threadWarnings c7Fetch [c7Parent, c7Parent2] :=
  fetchThreadReplies_degraded c7Fetch [c7Parent, c7Parent2] c7Parent
    "rate limited" (List.mem_cons_self c7Parent [c7Parent2]) (by decide) rfl rfl

/-! ## C10 — unparsable timestamps under the date filter -/

/-- C10: with both bounds nil, `filterMessagesByDate` returns the message
list unchanged (unparsable timestamps included); with at least one bound
set, every message whose timestamp fails to parse is excluded from the
result. -/
theorem filterMessagesByDate_unparsable (messages : List Message)
    (dateFrom dateTo : Option Int) :
    (dateFrom = none ∧ dateTo = none →
      filterMessagesByDate messages dateFrom dateTo = messages)
    ∧ (¬(dateFrom = none ∧ dateTo = none) →
        ∀ m ∈ messages, parseSlackTimestamp m.timestamp = none →
          m ∉ filterMessagesByDate messages dateFrom dateTo) := by
  constructor
  · intro h
    unfold filterMessagesByDate
    rw [if_pos h]
  · intro h m _ hp hmem
    unfold filterMessagesByDate at hmem
    rw [if_neg h] at hmem
    have hcond := (List.mem_filter.mp hmem).2
    unfold inDateRange at hcond
    rw [hp] at hcond
    cases hcond

/-- Witness for C10: the unparsable-timestamp message passes through when no
bound is set and is excluded once a lower bound is supplied. -/
theorem filterMessagesByDate_unparsable_witness :
    filterMessagesByDate [c10Message] none none = [c10Message]
    ∧ c10Message ∉ filterMessagesByDate [c10Message] (some 0) none :=
  ⟨(filterMessagesByDate_unparsable [c10Message] none none).1 ⟨rfl, rfl⟩,
   (filterMessagesByDate_unparsable [c10Message] (some 0) none).2
     (by simp) c10Message (by simp) (by decide)⟩

/-! ## Order facts about the Go string comparison -/

/-- `charListLt` is asymmetric. -/
theorem charListLt_asymm : ∀ a b : List Char,
    charListLt a b = true → charListLt b a = false
  | [], [] => by simp [charListLt]
  | [], _ :: _ => by simp [charListLt]
  | _ :: _, [] => by simp [charListLt]
  | a :: as, b :: bs => by
      simp only [charListLt]
      by_cases h1 : a < b
      · rw [if_pos h1, if_neg (lt_asymm h1), if_pos h1]
        intro
        rfl
      · rw [if_neg h1]
        by_cases h2 : b < a
        · rw [if_pos h2]
          intro h
          cases h
        · rw [if_neg h2, if_neg h2, if_neg h1]
          exact charListLt_asymm as bs
termination_by a _ => a.length

/-- The list with no characters is below every non-empty list. -/
theorem charListLt_nil_eq_false {b : List Char}
    (h : charListLt [] b = false) : b = [] := by
  cases b with
  | nil => rfl
  | cons x xs => cases h

/-- The negation of `charListLt` (Go `<=` on strings, read right to left) is
transitive. -/
theorem charListLt_le_trans : ∀ a b c : List Char,
    charListLt b a = false → charListLt c b = false → charListLt c a = false
  | a, b, [] => by
      intro h1 h2
      have hb := charListLt_nil_eq_false h2
      subst hb
      exact h1
  | _, [], _ :: _ => by
      intro h1 h2
      have ha := charListLt_nil_eq_false h1
      subst ha
      simp [charListLt]
  | [], _ :: _, _ :: _ => by
      intro h1 h2
      simp [charListLt]
  | z :: zs, y :: ys, x :: xs => by
      intro h1 h2
      simp only [charListLt] at h1 h2 ⊢
      by_cases hyz : y < z
      · rw [if_pos hyz] at h1
        cases h1
      rw [if_neg hyz] at h1
      by_cases hxy : x < y
      · rw [if_pos hxy] at h2
        cases h2
      rw [if_neg hxy] at h2
      have hzy : z ≤ y := not_lt.mp hyz
      have hyx : y ≤ x := not_lt.mp hxy
      have hzx : z ≤ x := le_trans hzy hyx
      rw [if_neg (not_lt.mpr hzx)]
      by_cases hlt : z < x
      · rw [if_pos hlt]
      · rw [if_neg hlt]
        have hxz : x = z := le_antisymm (not_lt.mp hlt) hzx
        have hyz2 : y = z := le_antisymm (hxz ▸ hyx) hzy
        rw [if_neg (show ¬ z < y by rw [hyz2]; exact lt_irrefl z)] at h1
        rw [if_neg (show ¬ y < x by rw [hyz2, hxz]; exact lt_irrefl z)] at h2
        exact charListLt_le_trans zs ys xs h1 h2
termination_by _ _ c => c.length

/-- `msgLe` is total, as `List.mergeSort`'s sortedness lemma requires. -/
theorem msgLe_total : ∀ a b : Message, msgLe a b || msgLe b a := by
  intro a b
  simp only [msgLe, goStringLt, Bool.or_eq_true, Bool.not_eq_true']
  by_cases h : charListLt b.timestamp.data a.timestamp.data = true
  · right
    exact charListLt_asymm _ _ h
  · left
    exact Bool.eq_false_iff.mpr h

/-- `msgLe` is transitive, as `List.mergeSort`'s sortedness lemma
requires. -/
theorem msgLe_trans : ∀ a b c : Message, msgLe a b → msgLe b c → msgLe a c := by
  intro a b c h1 h2
  simp only [msgLe, goStringLt, Bool.not_eq_true'] at h1 h2 ⊢
  exact charListLt_le_trans a.timestamp.data b.timestamp.data c.timestamp.data h1 h2

instance : IsTotal Message msgRel :=
  ⟨fun a b => Bool.or_eq_true _ _ ▸ msgLe_total a b⟩

instance : IsTrans Message msgRel :=
  ⟨fun a b c => msgLe_trans a b c⟩

/-! ## C4 — order of the accumulated message list -/

/-- C4 as stated is false: the code sorts by *string* comparison of the
timestamp fields, which disagrees with numeric order once integer parts have
different widths.  With the single page `["10.2", "9.5"]` the accumulated
list comes out as `["10.2", "9.5"]` (since `"10.2" < "9.5"` as strings),
which is *decreasing* by parsed value (10.2s > 9.5s). -/
theorem fetchAllMessages_not_sorted_by_parsed_counterexample :
    (fetchAllMessages none none [[c4MessageA, c4MessageB]]).map Message.timestamp
        = ["10.2", "9.5"]
    ∧ parseSlackTimestamp "10.2" = some 10200000000
    ∧ parseSlackTimestamp "9.5" = some 9500000000
    ∧ ¬ nondecreasingByParsedTs (fetchAllMessages none none [[c4MessageA, c4MessageB]]) := by
  refine ⟨by decide, by decide, by decide, by decide⟩

/-- C4 amended: for every fetched history the final accumulated top-level
message list is non-decreasing by *string* (byte-lexicographic) comparison of
timestamps — the order the code actually sorts by; it coincides with numeric
order only on fixed-width timestamp strings. -/
theorem fetchAllMessages_sorted_by_string (dateFrom dateTo : Option Int)
    (pages : List (List Message)) :
    (fetchAllMessages dateFrom dateTo pages).Pairwise
      fun a b => goStringLt b.timestamp a.timestamp = false := by
  have h := List.sorted_insertionSort msgRel
      (pages.foldl (fun acc page => acc ++ filterMessagesByDate page dateFrom dateTo) [])
  unfold fetchAllMessages
  exact h.imp fun hab => by
    simpa [msgRel, msgLe, goStringLt, Bool.not_eq_true'] using hab

/-! ## C3 — parent echo in resolved reply lists -/

/-- C3 as stated is false: the code drops the parent echo only when it is
the *first* returned reply.  If the remote source returns the echo in any
later position — here `[ts "2", ts "1"]` for a parent with timestamp `"1"` —
the echo survives into the attached (sorted) reply list. -/
theorem resolveThread_parent_echo_counterexample :
    c3Parent.timestamp = "1"
    ∧ ((resolveThread (fun _ => .ok [c3Reply, c3Echo]) c3Parent).thread.map
        Message.timestamp) = ["1", "2"]
    ∧ ¬ (∀ r ∈ (resolveThread (fun _ => .ok [c3Reply, c3Echo]) c3Parent).thread,
          r.timestamp ≠ c3Parent.timestamp) := by
  refine ⟨rfl, by decide, by decide⟩

/-- C3 amended: whenever the remote source returns the parent echo at most
as the *first* reply (the position the code strips) — and the message's
reply list held no such entry beforehand, as is the case for the empty list
every message enters the stage with — the resolved reply list contains no
entry whose timestamp equals the parent's own timestamp. -/
theorem resolveThread_no_parent_timestamp
    (fetch : String → Except String (List Message)) (m : Message)
    (replies : List Message)
    (hf : fetch m.threadTS = .ok replies)
    (hm : ∀ r ∈ m.thread, r.timestamp ≠ m.timestamp)
    (hr : ∀ r ∈ replies.drop 1, r.timestamp ≠ m.timestamp) :
    ∀ r ∈ (resolveThread fetch m).thread, r.timestamp ≠ m.timestamp := by
  unfold resolveThread
  by_cases hq : qualifiesForThreadFetch m = true
  · rw [if_pos hq, hf]
    intro r hrm
    rw [Message.thread_setThread] at hrm
    unfold sortByTimestamp at hrm
    exact stripParentEcho_no_parent hr r ((List.mem_insertionSort msgRel).mp hrm)
  · rw [if_neg hq]
    exact hm

/-- Witness for C3's amended statement on the spec's own example shape: the
echo arrives first and is stripped. -/
theorem resolveThread_no_parent_timestamp_witness :
    ((resolveThread (fun _ => .ok [c3Echo, c3Reply]) c3Parent).thread.all
      fun r => decide (r.timestamp ≠ c3Parent.timestamp)) = true := by
  have h := resolveThread_no_parent_timestamp (fun _ => .ok [c3Echo, c3Reply])
    c3Parent [c3Echo, c3Reply] rfl (by decide) (by decide)
  exact List.all_eq_true.mpr fun r hr => decide_eq_true (h r hr)

/-! ## C1 — TotalMessages counts top-level messages plus all replies -/

mutual

/-- Contribution of one message to the `TotalMessages` counter: one for the
node itself plus every reply in every reply list attached at or below it. -/
theorem countOne_totalMessages : ∀ (tzOffset : Int) (stats : ExportStatistics) (m : Message),
    (countOneMessage tzOffset stats m).totalMessages
      = stats.totalMessages + 1 + attachedRepliesOne m
  | tzOffset, stats, .mk ty u tx ts th rc thread atts fils reacts ed st => by
      simp only [countOneMessage, attachedRepliesOne]
      split
      · rw [countList_totalMessages]
        split <;> split <;> simp <;> omega
      · rename_i hthread
        have h0 : thread = [] := List.length_eq_zero.mp (by omega)
        subst h0
        simp only [attachedRepliesList]
        split <;> split <;> simp

/-- Contribution of a message list to the `TotalMessages` counter. -/
theorem countList_totalMessages : ∀ (tzOffset : Int) (stats : ExportStatistics) (l : List Message),
    (countMessagesList tzOffset stats l).totalMessages
      = stats.totalMessages + l.length + attachedRepliesList l
  | tzOffset, stats, [] => by
      simp [countMessagesList, attachedRepliesList]
  | tzOffset, stats, m :: ms => by
      rw [countMessagesList]
      rw [countList_totalMessages tzOffset _ ms, countOne_totalMessages tzOffset stats m]
      simp only [attachedRepliesList, List.length_cons]
      push_cast
      ring

end

/-- C1: for every aggregation input (hence for every successful export run),
the `TotalMessages` field of the computed statistics equals the number of
top-level messages plus the number of reply messages across all attached
reply lists. -/
theorem calculateStatistics_totalMessages (tzOffset : Int)
    (messages : List Message) (users : List (String × User))
    (pairs : List (String × Int)) :
    (calculateStatisticsWith tzOffset messages users pairs).totalMessages
      = (messages.length : Int) + attachedRepliesList messages := by
  show (countMessagesList tzOffset initStats messages).totalMessages = _
  rw [countList_totalMessages]
  simp [initStats]

/-! ## C2 — determinism of the statistics aggregation -/

instance : IsTotal (String × Int) reactionRel :=
  ⟨fun a b => by
    simp only [reactionRel, reactionLe, decide_eq_true_eq]
    exact Int.le_total b.2 a.2⟩

instance : IsTrans (String × Int) reactionRel :=
  ⟨fun a b c h1 h2 => by
    simp only [reactionRel, reactionLe, decide_eq_true_eq] at h1 h2 ⊢
    exact le_trans h2 h1⟩

/-- A list sorted by descending count whose counts are pairwise distinct is
sorted by *strictly* descending count. -/
theorem pairwise_strict_of_sorted_nodup (l : List (String × Int))
    (hs : l.Pairwise reactionRel) (hnd : (l.map Prod.snd).Nodup) :
    l.Pairwise fun a b => b.2 < a.2 := by
  have hne : l.Pairwise fun a b => a.2 ≠ b.2 := List.pairwise_map.mp hnd
  exact (hs.and hne).imp fun h =>
    lt_of_le_of_ne (of_decide_eq_true h.1) (Ne.symm h.2)

/-- Sorting two enumerations of the same reaction-count map yields the same
ranking whenever the aggregate counts are pairwise distinct. -/
theorem insertionSort_eq_of_perm_nodup (l₁ l₂ : List (String × Int))
    (hp : l₁.Perm l₂) (hnd : (l₁.map Prod.snd).Nodup) :
    List.insertionSort reactionRel l₁ = List.insertionSort reactionRel l₂ := by
  haveI : IsAntisymm (String × Int) (fun a b => b.2 < a.2) :=
    ⟨fun a b h1 h2 => absurd (lt_trans h1 h2) (lt_irrefl _)⟩
  have hperm : (List.insertionSort reactionRel l₁).Perm (List.insertionSort reactionRel l₂) :=
    (List.perm_insertionSort _ l₁).trans
      (hp.trans (List.perm_insertionSort _ l₂).symm)
  have hs1 := pairwise_strict_of_sorted_nodup _ (List.sorted_insertionSort _ l₁)
      (((List.perm_insertionSort _ l₁).map Prod.snd).nodup_iff.mpr hnd)
  have hs2 := pairwise_strict_of_sorted_nodup _ (List.sorted_insertionSort _ l₂)
      (((List.perm_insertionSort _ l₂).map Prod.snd).nodup_iff.mpr
        ((hp.map Prod.snd).nodup_iff.mp hnd))
  exact List.eq_of_perm_of_sorted hperm hs1 hs2

/-- The reaction-count content of the single message `c2Message`. -/
theorem c2Message_reactionCounts :
    reactionCounts [c2Message] = [("a", 1), ("b", 1)] := by
  simp [reactionCounts, collectReactionsList, collectReactionsOne, c2Message, bump]

/-- The reaction-count content of the single message `c2MessageW`. -/
theorem c2MessageW_reactionCounts :
    reactionCounts [c2MessageW] = [("a", 2), ("b", 1)] := by
  simp [reactionCounts, collectReactionsList, collectReactionsOne, c2MessageW, bump]

/-- C2 as stated is false: the Go code enumerates the `reactionCounts` map
with `range` (randomised iteration order) and sorts unstably by count alone,
so two invocations on the same input may order *tied* reactions differently.
With reactions `a:1` and `b:1`, the two possible enumeration orders — both
permutations of the map content — yield `ExportStatistics` values whose
`TopReactions` lists differ. -/
theorem calculateStatistics_order_counterexample :
    [(("a" : String), (1 : Int)), ("b", 1)].Perm (reactionCounts [c2Message])
    ∧ [(("b" : String), (1 : Int)), ("a", 1)].Perm (reactionCounts [c2Message])
    ∧ calculateStatisticsWith 0 [c2Message] [] [("a", 1), ("b", 1)]
        ≠ calculateStatisticsWith 0 [c2Message] [] [("b", 1), ("a", 1)] := by
  refine ⟨?_, ?_, ?_⟩
  · rw [c2Message_reactionCounts]
  · rw [c2Message_reactionCounts]
    exact List.Perm.swap _ _ _
  · intro h
    have htop : topReactionsOf [("a", 1), ("b", 1)]
        = topReactionsOf [("b", 1), ("a", 1)] :=
      congrArg ExportStatistics.topReactions h
    exact absurd htop (by decide)

/-- C2 amended: the aggregation is deterministic in every field except the
order of tied entries inside `TopReactions`: any two map-enumeration orders
give statistics agreeing on all totals and maps, and when the aggregate
reaction counts are pairwise distinct the two results — `TopReactions`
included — are identical. -/
theorem calculateStatistics_deterministic (tzOffset : Int)
    (messages : List Message) (users : List (String × User))
    (pairs₁ pairs₂ : List (String × Int))
    (h₁ : pairs₁.Perm (reactionCounts messages))
    (h₂ : pairs₂.Perm (reactionCounts messages)) :
    statsAgreeExceptTopReactions
        (calculateStatisticsWith tzOffset messages users pairs₁)
        (calculateStatisticsWith tzOffset messages users pairs₂)
    ∧ (((reactionCounts messages).map Prod.snd).Nodup →
        calculateStatisticsWith tzOffset messages users pairs₁
          = calculateStatisticsWith tzOffset messages users pairs₂) := by
  constructor
  · exact ⟨rfl, rfl, rfl, rfl, rfl, rfl, rfl, rfl, rfl⟩
  · intro hnd
    have ht : topReactionsOf pairs₁ = topReactionsOf pairs₂ := by
      unfold topReactionsOf
      rw [insertionSort_eq_of_perm_nodup pairs₁ pairs₂ (h₁.trans h₂.symm)
        ((h₁.map Prod.snd).nodup_iff.mpr hnd)]
    unfold calculateStatisticsWith
    rw [ht]

/-- Witness for C2's amended statement: with distinct aggregate counts
(`a:2`, `b:1`) the two enumeration orders agree completely. -/
theorem calculateStatistics_deterministic_witness :
    statsAgreeExceptTopReactions
        (calculateStatisticsWith 0 [c2MessageW] [] [("b", 1), ("a", 2)])
        (calculateStatisticsWith 0 [c2MessageW] [] [("a", 2), ("b", 1)])
    ∧ calculateStatisticsWith 0 [c2MessageW] [] [("b", 1), ("a", 2)]
        = calculateStatisticsWith 0 [c2MessageW] [] [("a", 2), ("b", 1)] :=
  ⟨(calculateStatistics_deterministic 0 [c2MessageW] [] [("b", 1), ("a", 2)]
      [("a", 2), ("b", 1)]
      (by rw [c2MessageW_reactionCounts]; exact List.Perm.swap _ _ _)
      (by rw [c2MessageW_reactionCounts])).1,
   (calculateStatistics_deterministic 0 [c2MessageW] [] [("b", 1), ("a", 2)]
      [("a", 2), ("b", 1)]
      (by rw [c2MessageW_reactionCounts]; exact List.Perm.swap _ _ _)
      (by rw [c2MessageW_reactionCounts])).2
     (by rw [c2MessageW_reactionCounts]; decide)⟩

/-! ## C8 — the day-bucket key and timezones -/

/-- Parsed value of `c8Message`'s timestamp (one second before 2024 UTC). -/
theorem c8Message_parse :
    parseSlackTimestamp "1704067199" = some 1704067199000000000 := by decide

/-- The local calendar day of that instant at UTC offset +1h. -/
theorem c8Message_localKey :
    localDateKey 3600 1704067199000000000 = "2024-01-01" := by decide

/-- C8 as stated is false: `calculateStatistics` formats the parsed
timestamp through `time.Unix`, which yields a time in the process-local
timezone, so the bucket key is the *local* calendar day.  In a process at
UTC offset +1h, the message timestamped 2023-12-31T23:59:59Z is bucketed
under `"2024-01-01"`, not under its UTC calendar day `"2023-12-31"`. -/
theorem calculateStatistics_dateKey_counterexample :
    (calculateStatistics 3600 [c8Message] []).messagesByDate = [("2024-01-01", 1)]
    ∧ parseSlackTimestamp c8Message.timestamp = some 1704067199000000000
    ∧ utcDateKey 1704067199000000000 = "2023-12-31"
    ∧ ("2024-01-01" : String) ≠ "2023-12-31" := by
  refine ⟨?_, by decide, by decide, by decide⟩
  show (countMessagesList 3600 initStats [c8Message]).messagesByDate = _
  simp [c8Message, countMessagesList, countOneMessage, c8Message_parse,
    c8Message_localKey, initStats, bump]

/-- C8 amended: the `MessagesByDate` bucket key of a counted node is the
calendar day of the node's parsed timestamp in the *process-local* timezone
(modelled as a fixed UTC offset); it equals the UTC calendar day whenever
the process runs at UTC offset zero. -/
theorem calculateStatistics_dateKey (tzOffset t : Int) (m : Message)
    (users : List (String × User)) (pairs : List (String × Int))
    (hp : parseSlackTimestamp m.timestamp = some t) (h0 : m.thread = []) :
    (calculateStatisticsWith tzOffset [m] users pairs).messagesByDate
        = [(localDateKey tzOffset t, 1)]
    ∧ localDateKey 0 t = utcDateKey t := by
  constructor
  · obtain ⟨ty, u, tx, ts, th, rc, thread, atts, fils, reacts, ed, st⟩ := m
    simp only [Message.timestamp] at hp
    simp only [Message.thread] at h0
    subst h0
    show (countMessagesList tzOffset initStats [Message.mk ty u tx ts th rc [] atts fils reacts ed st]).messagesByDate = _
    simp only [countMessagesList, countOneMessage, hp, initStats]
    split <;> split <;> simp [bump]
  · simp [localDateKey, utcDateKey]

/-- Witness for C8's amended statement: at offset zero the bucket key of
`c8Message` is its UTC day. -/
theorem calculateStatistics_dateKey_witness :
    (calculateStatisticsWith 0 [c8Message] [] []).messagesByDate
        = [(localDateKey 0 1704067199000000000, 1)]
    ∧ localDateKey 0 1704067199000000000 = utcDateKey 1704067199000000000 :=
  calculateStatistics_dateKey 0 1704067199000000000 c8Message [] []
    (by decide) rfl

/-! ## C9 — the include-files / include-reactions flags -/

/-- One half of C9 is false: the Go `ExportMetadata` struct carries no
include-files or include-reactions field, so the flag values are recorded
*nowhere*: the metadata of two exports whose options differ exactly in the
two flags is identical, so the flags' values are not recorded in the export
metadata (nor anywhere else in the document). -/
theorem exportMetadata_flags_counterexample :
    c9OptionsA.includeFiles ≠ c9OptionsB.includeFiles
    ∧ c9OptionsA.includeReactions ≠ c9OptionsB.includeReactions
    ∧ exportMetadataOf 0 "1.0.0" c9OptionsA = exportMetadataOf 0 "1.0.0" c9OptionsB :=
  ⟨by decide, by decide, by decide⟩

/-- C9 amended: two option sets differing only in the `IncludeFiles` and
`IncludeReactions` flags produce identical export documents (and identical
statistics) — files and reactions are never omitted from message content —
and the two flags are recorded nowhere in the document, not even in the
export metadata, which carries only the thread-inclusion flag. -/
theorem processExportData_ignores_content_flags (now tzOffset : Int)
    (version : String) (channel : Channel) (messages : List Message)
    (users : List (String × User)) (options : ExportOptions)
    (pairs : List (String × Int)) (f r : Bool) :
    processExportData now tzOffset version channel messages users
        { options with includeFiles := f, includeReactions := r } pairs
      = processExportData now tzOffset version channel messages users options pairs := rfl
